import Mathlib

/-!
Verification of the uefi-rs runtime-services / device-path / loaded-image /
time modules against their natural-language specification.

The Rust sources are shallowly embedded:
* machine integers become `Nat` / `Int` (no overflow is relevant anywhere here:
  the code only compares and copies the values);
* firmware function pointers become explicit oracles (`Nat → Nat → FwResp`
  etc.) giving the firmware's response to each successive call;
* the `loop` in `RuntimeServices::get_variable` becomes a fuel-indexed
  recursion (the Rust loop is unbounded; `fuelOut` marks exhausted fuel);
* Rust panics (`panic!`, `expect`, failed `assert!`) become explicit
  constructors / `Option.none`.
-/

namespace Uefi

/-- Modelled from the spec: the repository's `Status` type (its source file is
not part of the extract).  A status is a machine word; the error range is
exactly the codes with the high bit set (§4.2 of the spec: "error (the
remaining range, high bit set on native width)"), `0` is the unique success
value.  Codes are the standard UEFI ones. -/
abbrev Status := Nat

namespace Status

/-- High bit of a 64-bit status word. -/
def ERROR_BIT : Nat := 2 ^ 63

def SUCCESS : Status := 0

def INVALID_PARAMETER : Status := ERROR_BIT + 2

def BUFFER_TOO_SMALL : Status := ERROR_BIT + 5

def DEVICE_ERROR : Status := ERROR_BIT + 7

def NOT_FOUND : Status := ERROR_BIT + 14

/-- `Status::is_error`: the high bit is set. -/
def is_error (s : Status) : Bool := decide (ERROR_BIT ≤ s)

end Status

/-!
## Model of the `ucs2` crate's conversions

The `ucs2` crate is an external dependency (not in the extract), modelled
from the spec (§6 "Text encoding boundary") and its documented behaviour:
`encode` writes one 16-bit unit per char and fails exactly on chars that do
not fit in 16 bits; `decode` writes the UTF-8 encoding of each 16-bit unit
(1–3 bytes per unit) and fails exactly when the output buffer is too small.
Characters are represented by their numeric code.
-/

/-- Modelled from the spec: `ucs2::encode` into a buffer of exactly
`name.length` units succeeds iff every char fits in one 16-bit unit. -/
def ucs2_encode_ok (name : List Nat) : Bool :=
  name.all (fun c => decide (c ≤ 0xFFFF))

/-- Number of UTF-8 bytes for one 16-bit unit. -/
def utf8Len (c : Nat) : Nat :=
  if c ≤ 0x7f then 1 else if c ≤ 0x7ff then 2 else 3

/-- UTF-8 encoding of one 16-bit unit. -/
def utf8Bytes (c : Nat) : List Nat :=
  if c ≤ 0x7f then [c]
  else if c ≤ 0x7ff then [0xC0 + c / 64, 0x80 + c % 64]
  else [0xE0 + c / 4096, 0x80 + c / 64 % 64, 0x80 + c % 64]

/-- Modelled from the spec: `ucs2::decode units` into an output buffer of
`bufSize` bytes; fails (buffer overflow) iff the total UTF-8 length exceeds
`bufSize`, otherwise returns the written bytes. -/
def ucs2_decode (units : List Nat) (bufSize : Nat) : Option (List Nat) :=
  if (units.map utf8Len).sum ≤ bufSize then some ((units.map utf8Bytes).flatten)
  else none

/-!
## `RuntimeServices::get_variable` (src/table/runtime.rs, lines 127–156)

The firmware's `get_variable` function pointer is an oracle
`fw : Nat → Nat → FwResp`, mapping the call index and the `data_size`
passed in (always equal to the buffer length: the initial buffer is
`vec![0; 64]`, and after a resize both are the reported size) to the
values the firmware writes back.  The buffer's contents are opaque (the
Rust code never reads them), so the buffer is tracked by its length.
-/

/-- One firmware response to the `get_variable` function pointer: the status
returned and the values written through the `data_size` / `attributes`
out-pointers. -/
structure FwResp where
  status : Status
  dataSize : Nat
  attributes : Nat
deriving DecidableEq

/-- Result of the `get_variable` retry loop.  `ok dataLen attributes` is
`Ok((data, attributes))` with `data.len() = dataLen`; `err s` is `Err(s)`;
`fuelOut` marks exhausted fuel (the Rust loop is unbounded). -/
inductive GetVarResult where
  | ok (dataLen : Nat) (attributes : Nat)
  | err (s : Status)
  | fuelOut
deriving DecidableEq

/-- The `loop` of `RuntimeServices::get_variable`: call the firmware with the
current buffer; on `SUCCESS` truncate the buffer to the reported size
(`Vec::truncate`: new length `min reported current`) and return it with the
attributes; on `BUFFER_TOO_SMALL` resize the buffer to the reported size
(`Vec::resize`) and retry; on any other status return it as the error. -/
def getVariableLoop (fw : Nat → Nat → FwResp) : Nat → Nat → Nat → GetVarResult
  | 0, _, _ => .fuelOut
  | fuel + 1, i, len =>
    let r := fw i len
    if r.status = Status.SUCCESS then .ok (min r.dataSize len) r.attributes
    else if r.status = Status.BUFFER_TOO_SMALL then
      getVariableLoop fw fuel (i + 1) r.dataSize
    else .err r.status

/-- Number of firmware calls the loop performs (observation of the same
recursion). -/
def getVariableCallCount (fw : Nat → Nat → FwResp) : Nat → Nat → Nat → Nat
  | 0, _, _ => 0
  | fuel + 1, i, len =>
    let r := fw i len
    if r.status = Status.SUCCESS then 1
    else if r.status = Status.BUFFER_TOO_SMALL then
      1 + getVariableCallCount fw fuel (i + 1) r.dataSize
    else 1

/-- Length of the buffer at the successful call, if the loop succeeds
(observation of the same recursion). -/
def getVariableFinalLen (fw : Nat → Nat → FwResp) : Nat → Nat → Nat → Option Nat
  | 0, _, _ => none
  | fuel + 1, i, len =>
    let r := fw i len
    if r.status = Status.SUCCESS then some len
    else if r.status = Status.BUFFER_TOO_SMALL then
      getVariableFinalLen fw fuel (i + 1) r.dataSize
    else none

/-- `RuntimeServices::get_variable`: encode the variable name to UCS-2
(failure maps to `Err(INVALID_PARAMETER)`) and, on success, run the retry
loop with the initial 64-byte buffer.  The second component counts the
firmware calls performed. -/
def get_variable (name : List Nat) (fw : Nat → Nat → FwResp) (fuel : Nat) :
    GetVarResult × Nat :=
  if ucs2_encode_ok name then
    (getVariableLoop fw fuel 0 64, getVariableCallCount fw fuel 0 64)
  else (.err Status.INVALID_PARAMETER, 0)

/-- `RuntimeServices::set_variable`: encode the variable name (failure maps
to `Err(INVALID_PARAMETER)` before any firmware call), then invoke the
firmware once and convert its status with `.into()` (errors become `Err`,
success and warnings become `Ok`).  The second component counts the firmware
calls performed. -/
def set_variable (name : List Nat) (attributes : Nat) (data : List Nat)
    (fwSet : List Nat → Nat → List Nat → Status) : Except Status Status × Nat :=
  if ucs2_encode_ok name then
    let s := fwSet name attributes data
    (if Status.is_error s then .error s else .ok s, 1)
  else (.error Status.INVALID_PARAMETER, 0)

/-!
## `VariablesIterator` (src/table/runtime.rs, lines 214–273)

The firmware's `get_next_variable_name` function pointer is an oracle
`fw : Nat → GnvnResp` mapping the index of the call (across the whole
iteration) to the firmware's response.  The name buffer (`Vec<u16>`,
initially `vec![0; 32]`) is tracked with its contents, since `next`
reads it back (`take_while(!= 0)` then `ucs2::decode`).
-/

/-- One firmware response to `get_next_variable_name`: the status, the value
written through the `variable_name_size` out-pointer (meaningful on
`BUFFER_TOO_SMALL`), and — on `SUCCESS` — the variable name (without its
terminating NUL) written into the buffer and the vendor GUID written through
the `vendor_guid` out-pointer. -/
structure GnvnResp where
  status : Status
  nameSize : Nat
  name : List Nat
  guid : Nat
deriving DecidableEq

/-- State carried by `VariablesIterator` between `next()` calls, plus the
index of the next firmware call (which replaces the firmware's internal
enumeration cursor in this model). -/
structure IterState where
  callIdx : Nat
  buffer : List Nat
  guid : Nat
deriving DecidableEq

/-- `VariablesIterator::new`: a 32-unit zeroed buffer and the zero GUID. -/
def initIterState : IterState := ⟨0, List.replicate 32 0, 0⟩

/-- `Vec::resize(n, 0)`: truncate to `n` or extend with zeros to `n`. -/
def resizeList (l : List Nat) (n : Nat) : List Nat :=
  l.take n ++ List.replicate (n - l.length) 0

/-- The firmware writing a NUL-terminated name into the caller's buffer:
bytes past the written part keep their old values, and the buffer's length
never changes. -/
def writeInto (buf w : List Nat) : List Nat :=
  (w ++ buf.drop w.length).take buf.length

/-- Outcome of one `VariablesIterator::next()` call.  `yield` returns
`Some(Variable)` (decoded UTF-8 name bytes and vendor GUID) together with
the iterator's state afterwards; `ended` returns `None`;
`panicRetry s` is the `panic!` when the call after a buffer resize fails
with status `s`; `panicDecode` is the `.expect` panic on UCS-2 decode
failure. -/
inductive NextOutcome where
  | yield (name : List Nat) (guid : Nat) (st : IterState)
  | ended
  | panicRetry (s : Status)
  | panicDecode
deriving DecidableEq

/-- The tail of `VariablesIterator::next()` after the status match: compute
the NUL-terminated name length, decode the name to UTF-8 into a buffer of
3 bytes per unit (panicking via `.expect` on failure), and yield the
variable. -/
def decodePhase (buf : List Nat) (g : Nat) (c : Nat) : NextOutcome :=
  let nameLen := (buf.takeWhile (fun e => e != 0)).length
  match ucs2_decode (buf.take nameLen) (3 * nameLen) with
  | none => .panicDecode
  | some bytes => .yield bytes g ⟨c, buf, g⟩

/-- `VariablesIterator::next()`: call `get_next_variable_name`; on `SUCCESS`
(the firmware wrote the name and GUID) proceed to decoding; on
`BUFFER_TOO_SMALL` resize the buffer to the reported size, call again, and
`panic!` if that second call returns an error status, otherwise proceed to
decoding (the firmware wrote name and GUID iff the retry returned
`SUCCESS`); on any other status return `None`. -/
def nextStep (fw : Nat → GnvnResp) (st : IterState) : NextOutcome :=
  let r := fw st.callIdx
  if r.status = Status.SUCCESS then
    decodePhase (writeInto st.buffer (r.name ++ [0])) r.guid (st.callIdx + 1)
  else if r.status = Status.BUFFER_TOO_SMALL then
    let buf2 := resizeList st.buffer r.nameSize
    let r2 := fw (st.callIdx + 1)
    if Status.is_error r2.status then .panicRetry r2.status
    else if r2.status = Status.SUCCESS then
      decodePhase (writeInto buf2 (r2.name ++ [0])) r2.guid (st.callIdx + 2)
    else decodePhase buf2 st.guid (st.callIdx + 2)
  else .ended

/-- How the whole iteration ends when `next()` is driven repeatedly. -/
inductive RunEnd where
  | ended
  | panicRetry (s : Status)
  | panicDecode
  | fuelOut
deriving DecidableEq

/-- Drive the iterator: collect the yielded `(name, guid)` pairs until
`next()` stops yielding (or fuel runs out). -/
def runIter (fw : Nat → GnvnResp) : Nat → IterState → List (List Nat × Nat) × RunEnd
  | 0, _ => ([], .fuelOut)
  | fuel + 1, st =>
    match nextStep fw st with
    | .yield name guid st' =>
      ((name, guid) :: (runIter fw fuel st').1, (runIter fw fuel st').2)
    | .ended => ([], .ended)
    | .panicRetry s => ([], .panicRetry s)
    | .panicDecode => ([], .panicDecode)

/-!
### Formalisation of "every BUFFER_TOO_SMALL report is retried"

`nextStep` performs one firmware call, plus a second one exactly when the
first reported `BUFFER_TOO_SMALL`; the buffer used by the second call is the
one resized to the reported size.  The predicate below renders the claim
"whenever a call reports `BUFFER_TOO_SMALL`, the operation resizes the
buffer to at least the reported length and retries" for one `next()` call.
-/

/-- Number of firmware calls one `nextStep` performs. -/
def callsMade (fw : Nat → GnvnResp) (st : IterState) : Nat :=
  if (fw st.callIdx).status = Status.BUFFER_TOO_SMALL then 2 else 1

/-- Length of the buffer passed to the k-th firmware call of one
`nextStep` (the second call, when made, uses the resized buffer). -/
def bufLenAt (fw : Nat → GnvnResp) (st : IterState) : Nat → Nat
  | 0 => st.buffer.length
  | _ + 1 => (fw st.callIdx).nameSize

/-- "Every `BUFFER_TOO_SMALL` reported during this `next()` call is followed
by a further call with a buffer at least as long as the reported size." -/
def iterBtsAlwaysRetried (fw : Nat → GnvnResp) (st : IterState) : Prop :=
  ∀ k, k < callsMade fw st →
    (fw (st.callIdx + k)).status = Status.BUFFER_TOO_SMALL →
    k + 1 < callsMade fw st ∧ (fw (st.callIdx + k)).nameSize ≤ bufLenAt fw st (k + 1)

/-- A firmware that reports `BUFFER_TOO_SMALL` on both the first call and the
post-resize retry. -/
def fwDoubleBts : Nat → GnvnResp := fun i =>
  if i = 0 then ⟨Status.BUFFER_TOO_SMALL, 40, [], 0⟩
  else ⟨Status.BUFFER_TOO_SMALL, 50, [], 0⟩

/-- A firmware that fails the first enumeration call with `DEVICE_ERROR`. -/
def fwDeviceError : Nat → GnvnResp := fun _ => ⟨Status.DEVICE_ERROR, 0, [], 0⟩

/-!
## Device paths (src/proto/device_path/mod.rs)

A device-path node is a 4-byte header (type, sub-type, 16-bit length)
followed by payload bytes.  `next_node` is raw pointer arithmetic
(`self as *const u8 + self.length`), so memory is modelled as a map from
byte addresses to the node header readable at that address, and nodes are
identified by their address.
-/

/-- The `DevicePath` node header: type, sub-type and byte length of the node.
(`DevicePathType` is a newtype over `u8`; it is represented by its numeric
value.) -/
structure DevicePath where
  path_type : Nat
  sub_type : Nat
  length : Nat
deriving DecidableEq, Inhabited

/-- `DevicePathType::END_OF_HARDWARE`. -/
def DevicePathType.END_OF_HARDWARE : Nat := 0x7f

/-- `EndSubType::END_ENTIRE`. -/
def EndSubType.END_ENTIRE : Nat := 0xff

/-- `DevicePath::is_end`: type is `END_OF_HARDWARE` and sub-type is
`END_ENTIRE`. -/
def DevicePath.is_end (d : DevicePath) : Bool :=
  d.path_type == DevicePathType.END_OF_HARDWARE &&
    d.sub_type == EndSubType.END_ENTIRE

/-- `DevicePath::next_node`: the node at byte offset `self.length` from
`self`'s own address. -/
def next_node (mem : Nat → DevicePath) (addr : Nat) : Nat :=
  addr + (mem addr).length

/-- `next_node` applied `k` times. -/
def nextIter (mem : Nat → DevicePath) : Nat → Nat → Nat
  | 0, addr => addr
  | k + 1, addr => next_node mem (nextIter mem k addr)

/-- Byte offset of the i-th node of a chain laid out contiguously: the sum
of the lengths of the preceding nodes. -/
def layoutOffset (ns : List DevicePath) (i : Nat) : Nat :=
  ((ns.take i).map (fun d => d.length)).sum

/-- The chain `ns` is laid out in `mem` contiguously from address
`start`. -/
def chainLayout (mem : Nat → DevicePath) (start : Nat) (ns : List DevicePath) : Prop :=
  ∀ i, (h : i < ns.length) → mem (start + layoutOffset ns i) = ns.get ⟨i, h⟩

/-!
## `Time` (src/table/runtime.rs, lines 275–387)

`Time::new` checks each field with `assert!` and panics on violation;
the panic is modelled as `Option.none`.  `Daylight` is a `u8` bitflag
represented by its numeric value.
-/

/-- The `Time` struct, fields in source order. -/
structure Time where
  year : Nat
  month : Nat
  day : Nat
  hour : Nat
  minute : Nat
  second : Nat
  _pad1 : Nat
  nanosecond : Nat
  time_zone : Int
  daylight : Nat
  _pad2 : Nat
deriving DecidableEq

/-- `Time::new`: `assert!` each field range (modelled as `none` on a failed
assertion), then build the struct with both padding fields zero. -/
def Time.new? (year month day hour minute second nanosecond : Nat)
    (time_zone : Int) (daylight : Nat) : Option Time :=
  if 1900 ≤ year ∧ year ≤ 9999 ∧
     1 ≤ month ∧ month ≤ 12 ∧
     1 ≤ day ∧ day ≤ 31 ∧
     hour ≤ 23 ∧ minute ≤ 59 ∧ second ≤ 59 ∧
     nanosecond ≤ 999999999 ∧
     ((-1440 ≤ time_zone ∧ time_zone ≤ 1440) ∨ time_zone = 2047) then
    some ⟨year, month, day, hour, minute, second, 0, nanosecond, time_zone,
      daylight, 0⟩
  else none

/-- `Time::time_zone()`: `None` when the stored offset is the unspecified
sentinel `2047`, otherwise `Some` of it.  (The field projections model the
other accessors, which return their field unchanged.) -/
def Time.time_zone? (t : Time) : Option Int :=
  if t.time_zone = 2047 then none else some t.time_zone

/-!
## `LoadedImage` (src/proto/loaded_image/mod.rs)

Only the plain data fields are modelled (handles, pointers and `MemoryType`
values are represented by their numeric value; the function-pointer field is
omitted, as are the raw pointers that no modelled accessor reads).
-/

/-- The `LoadedImage` protocol struct (data fields). -/
structure LoadedImage where
  revision : Nat
  parent_handle : Nat
  device_handle : Nat
  load_options_size : Nat
  image_base : Nat
  image_size : Nat
  image_code_type : Nat
  image_data_type : Nat
deriving DecidableEq

/-- `LoadedImage::image_code_type()`: returns the `image_code_type`
field. -/
def LoadedImage.image_code_type' (li : LoadedImage) : Nat :=
  li.image_code_type

/-- `LoadedImage::image_data_type()`: as written in the source, returns the
`image_code_type` field (not the `image_data_type` field). -/
def LoadedImage.image_data_type' (li : LoadedImage) : Nat :=
  li.image_code_type

/-!
## Helper lemmas
-/

lemma utf8Len_le_three (c : Nat) : utf8Len c ≤ 3 := by
  unfold utf8Len
  split
  · omega
  · split <;> omega

lemma sum_utf8Len_le (units : List Nat) :
    (units.map utf8Len).sum ≤ 3 * units.length := by
  induction units with
  | nil => simp
  | cons c cs ih =>
    simp only [List.map_cons, List.sum_cons, List.length_cons]
    have := utf8Len_le_three c
    omega

lemma ucs2_decode_some (units : List Nat) :
    (ucs2_decode units (3 * units.length)).isSome = true := by
  unfold ucs2_decode
  rw [if_pos (sum_utf8Len_le units)]
  rfl

lemma bts_ne_success : Status.BUFFER_TOO_SMALL ≠ Status.SUCCESS := by decide

lemma decodePhase_yield (buf : List Nat) (g c : Nat) :
    ∃ bytes, decodePhase buf g c = .yield bytes g ⟨c, buf, g⟩ := by
  unfold decodePhase
  have hlen : (buf.take (buf.takeWhile (fun e => e != 0)).length).length
      = (buf.takeWhile (fun e => e != 0)).length := by
    rw [List.length_take]
    exact Nat.min_eq_left (List.takeWhile_prefix _).length_le
  have h := ucs2_decode_some (buf.take (buf.takeWhile (fun e => e != 0)).length)
  rw [hlen] at h
  rcases hdec : ucs2_decode (buf.take (buf.takeWhile (fun e => e != 0)).length)
      (3 * (buf.takeWhile (fun e => e != 0)).length) with _ | bytes
  · rw [hdec] at h; simp at h
  · exact ⟨bytes, by simp only [hdec]⟩

lemma resizeList_length (l : List Nat) (n : Nat) :
    (resizeList l n).length = n := by
  simp [resizeList]
  omega

lemma writeInto_length (buf w : List Nat) :
    (writeInto buf w).length = buf.length := by
  simp [writeInto]
  omega

lemma getVariableLoop_success_step (fw : Nat → Nat → FwResp) (fuel i len : Nat)
    (h : (fw i len).status = Status.SUCCESS) :
    getVariableLoop fw (fuel + 1) i len
      = .ok (min (fw i len).dataSize len) (fw i len).attributes := by
  conv_lhs => unfold getVariableLoop
  rw [if_pos h]

lemma getVariableLoop_bts_step (fw : Nat → Nat → FwResp) (fuel i len : Nat)
    (h : (fw i len).status = Status.BUFFER_TOO_SMALL) :
    getVariableLoop fw (fuel + 1) i len
      = getVariableLoop fw fuel (i + 1) (fw i len).dataSize := by
  conv_lhs => unfold getVariableLoop
  rw [if_neg (fun hc => bts_ne_success (h ▸ hc)), if_pos h]

lemma getVariableLoop_other_step (fw : Nat → Nat → FwResp) (fuel i len : Nat)
    (h1 : (fw i len).status ≠ Status.SUCCESS)
    (h2 : (fw i len).status ≠ Status.BUFFER_TOO_SMALL) :
    getVariableLoop fw (fuel + 1) i len = .err (fw i len).status := by
  conv_lhs => unfold getVariableLoop
  rw [if_neg h1, if_neg h2]

lemma getVariableLoop_ne_err_bts (fw : Nat → Nat → FwResp) :
    ∀ fuel i len : Nat,
      getVariableLoop fw fuel i len ≠ .err Status.BUFFER_TOO_SMALL := by
  intro fuel
  induction fuel with
  | zero => intro i len h; exact GetVarResult.noConfusion h
  | succ fuel ih =>
    intro i len h
    by_cases h1 : (fw i len).status = Status.SUCCESS
    · rw [getVariableLoop_success_step fw fuel i len h1] at h
      exact GetVarResult.noConfusion h
    · by_cases h2 : (fw i len).status = Status.BUFFER_TOO_SMALL
      · rw [getVariableLoop_bts_step fw fuel i len h2] at h
        exact ih _ _ h
      · rw [getVariableLoop_other_step fw fuel i len h1 h2] at h
        injection h with h3
        exact h2 h3

lemma nextStep_success (fw : Nat → GnvnResp) (st : IterState)
    (h : (fw st.callIdx).status = Status.SUCCESS) :
    nextStep fw st
      = decodePhase (writeInto st.buffer ((fw st.callIdx).name ++ [0]))
          (fw st.callIdx).guid (st.callIdx + 1) := by
  unfold nextStep
  rw [if_pos h]

lemma nextStep_other (fw : Nat → GnvnResp) (st : IterState)
    (h1 : (fw st.callIdx).status ≠ Status.SUCCESS)
    (h2 : (fw st.callIdx).status ≠ Status.BUFFER_TOO_SMALL) :
    nextStep fw st = .ended := by
  unfold nextStep
  rw [if_neg h1, if_neg h2]

lemma nextStep_bts_err (fw : Nat → GnvnResp) (st : IterState)
    (h : (fw st.callIdx).status = Status.BUFFER_TOO_SMALL)
    (he : Status.is_error (fw (st.callIdx + 1)).status = true) :
    nextStep fw st = .panicRetry (fw (st.callIdx + 1)).status := by
  unfold nextStep
  rw [if_neg (fun hc => bts_ne_success (h ▸ hc)), if_pos h, if_pos he]

lemma nextStep_bts_ok (fw : Nat → GnvnResp) (st : IterState)
    (h : (fw st.callIdx).status = Status.BUFFER_TOO_SMALL)
    (he : Status.is_error (fw (st.callIdx + 1)).status = false) :
    ∃ bytes st', nextStep fw st = .yield bytes st'.guid st'
      ∧ st'.buffer.length = (fw st.callIdx).nameSize
      ∧ st'.callIdx = st.callIdx + 2 := by
  unfold nextStep
  rw [if_neg (fun hc => bts_ne_success (h ▸ hc)), if_pos h,
    if_neg (by rw [he]; exact Bool.false_ne_true)]
  by_cases h2 : (fw (st.callIdx + 1)).status = Status.SUCCESS
  · rw [if_pos h2]
    obtain ⟨bytes, hb⟩ := decodePhase_yield
      (writeInto (resizeList st.buffer (fw st.callIdx).nameSize)
        ((fw (st.callIdx + 1)).name ++ [0]))
      (fw (st.callIdx + 1)).guid (st.callIdx + 2)
    exact ⟨bytes, ⟨st.callIdx + 2,
      writeInto (resizeList st.buffer (fw st.callIdx).nameSize)
        ((fw (st.callIdx + 1)).name ++ [0]), (fw (st.callIdx + 1)).guid⟩,
      hb, by rw [writeInto_length, resizeList_length], rfl⟩
  · rw [if_neg h2]
    obtain ⟨bytes, hb⟩ := decodePhase_yield
      (resizeList st.buffer (fw st.callIdx).nameSize) st.guid (st.callIdx + 2)
    exact ⟨bytes, ⟨st.callIdx + 2,
      resizeList st.buffer (fw st.callIdx).nameSize, st.guid⟩,
      hb, resizeList_length _ _, rfl⟩

/-!
## Theorems
-/

/-- C8: for every `LoadedImage`, the accessor `image_data_type()` returns the
contents of the `image_code_type` field, hence always agrees with
`image_code_type()` and is independent of the `image_data_type` field. -/
theorem image_data_type_returns_code_type :
    ∀ li : LoadedImage,
      li.image_data_type' = li.image_code_type'
      ∧ li.image_data_type' = li.image_code_type
      ∧ ∀ v : Nat,
          ({ li with image_data_type := v } : LoadedImage).image_data_type'
            = li.image_data_type' :=
  fun _ => ⟨rfl, rfl, fun _ => rfl⟩

/-- C5: `Time::new` accepts an argument tuple iff every field is inside its
documented range (year 1900–9999, month 1–12, day 1–31, hour ≤ 23,
minute ≤ 59, second ≤ 59, nanosecond ≤ 999 999 999, time_zone in
-1440..1440 or the sentinel 2047); in particular month 13, hour 24 and
time_zone 1500 are rejected while time_zone 2047 and -1440 are accepted. -/
theorem time_new_rejects_iff :
    (∀ (year month day hour minute second nanosecond : Nat)
       (time_zone : Int) (daylight : Nat),
       (Time.new? year month day hour minute second nanosecond time_zone
           daylight).isSome = true ↔
         (1900 ≤ year ∧ year ≤ 9999 ∧ 1 ≤ month ∧ month ≤ 12 ∧
          1 ≤ day ∧ day ≤ 31 ∧ hour ≤ 23 ∧ minute ≤ 59 ∧ second ≤ 59 ∧
          nanosecond ≤ 999999999 ∧
          ((-1440 ≤ time_zone ∧ time_zone ≤ 1440) ∨ time_zone = 2047)))
    ∧ Time.new? 2000 13 1 0 0 0 0 0 0 = none
    ∧ Time.new? 2000 1 1 24 0 0 0 0 0 = none
    ∧ Time.new? 2000 1 1 0 0 0 0 1500 0 = none
    ∧ (Time.new? 2000 1 1 0 0 0 0 2047 0).isSome = true
    ∧ (Time.new? 2000 1 1 0 0 0 0 (-1440) 0).isSome = true := by
  refine ⟨?_, by decide, by decide, by decide, by decide, by decide⟩
  intro year month day hour minute second nanosecond time_zone daylight
  unfold Time.new?
  split
  case isTrue h => simpa using h
  case isFalse h => simpa using h

/-- C10: every argument tuple accepted by `Time::new` is returned unchanged
by the accessors; both padding fields are zero, and `time_zone()` is `None`
iff the argument was the sentinel 2047, otherwise `Some` of it. -/
theorem time_new_roundtrip :
    ∀ (year month day hour minute second nanosecond : Nat)
      (time_zone : Int) (daylight : Nat) (t : Time),
      Time.new? year month day hour minute second nanosecond time_zone
          daylight = some t →
      t.year = year ∧ t.month = month ∧ t.day = day ∧ t.hour = hour ∧
      t.minute = minute ∧ t.second = second ∧ t.nanosecond = nanosecond ∧
      t.daylight = daylight ∧ t._pad1 = 0 ∧ t._pad2 = 0 ∧
      t.time_zone? = (if time_zone = 2047 then none else some time_zone) := by
  intro year month day hour minute second nanosecond time_zone daylight t hEq
  unfold Time.new? at hEq
  split at hEq
  · cases hEq
    exact ⟨rfl, rfl, rfl, rfl, rfl, rfl, rfl, rfl, rfl, rfl, rfl⟩
  · cases hEq

/-- Witness for C10 at a concrete accepted tuple. -/
theorem time_new_roundtrip_witness :
    (⟨2024, 5, 17, 13, 45, 59, 0, 123, -60, 3, 0⟩ : Time).year = 2024 ∧
    (⟨2024, 5, 17, 13, 45, 59, 0, 123, -60, 3, 0⟩ : Time).month = 5 ∧
    (⟨2024, 5, 17, 13, 45, 59, 0, 123, -60, 3, 0⟩ : Time).day = 17 ∧
    (⟨2024, 5, 17, 13, 45, 59, 0, 123, -60, 3, 0⟩ : Time).hour = 13 ∧
    (⟨2024, 5, 17, 13, 45, 59, 0, 123, -60, 3, 0⟩ : Time).minute = 45 ∧
    (⟨2024, 5, 17, 13, 45, 59, 0, 123, -60, 3, 0⟩ : Time).second = 59 ∧
    (⟨2024, 5, 17, 13, 45, 59, 0, 123, -60, 3, 0⟩ : Time).nanosecond = 123 ∧
    (⟨2024, 5, 17, 13, 45, 59, 0, 123, -60, 3, 0⟩ : Time).daylight = 3 ∧
    (⟨2024, 5, 17, 13, 45, 59, 0, 123, -60, 3, 0⟩ : Time)._pad1 = 0 ∧
    (⟨2024, 5, 17, 13, 45, 59, 0, 123, -60, 3, 0⟩ : Time)._pad2 = 0 ∧
    (⟨2024, 5, 17, 13, 45, 59, 0, 123, -60, 3, 0⟩ : Time).time_zone?
      = (if (-60 : Int) = 2047 then none else some (-60 : Int)) :=
  time_new_roundtrip 2024 5 17 13 45 59 123 (-60) 3
    ⟨2024, 5, 17, 13, 45, 59, 0, 123, -60, 3, 0⟩ (by decide)

/-- C3: when the firmware call inside the `get_variable` loop returns
`SUCCESS`, the loop returns the buffer truncated to the reported data size
(`min reported bufLen`, hence exactly the reported size whenever it is at
most the buffer length) together with the reported attributes word. -/
theorem get_variable_success_truncates :
    ∀ (fw : Nat → Nat → FwResp) (fuel i len : Nat),
      (fw i len).status = Status.SUCCESS →
      getVariableLoop fw (fuel + 1) i len
        = .ok (min (fw i len).dataSize len) (fw i len).attributes
      ∧ ((fw i len).dataSize ≤ len →
         getVariableLoop fw (fuel + 1) i len
           = .ok (fw i len).dataSize (fw i len).attributes) := by
  intro fw fuel i len h
  have h1 : getVariableLoop fw (fuel + 1) i len
      = .ok (min (fw i len).dataSize len) (fw i len).attributes := by
    unfold getVariableLoop
    rw [if_pos h]
  refine ⟨h1, fun hle => ?_⟩
  rw [h1, Nat.min_eq_left hle]

/-- Witness for C3 at a concrete firmware response. -/
theorem get_variable_success_truncates_witness :
    getVariableLoop (fun _ _ => ⟨Status.SUCCESS, 10, 7⟩) 1 0 64
      = .ok 10 7 :=
  (get_variable_success_truncates (fun _ _ => ⟨Status.SUCCESS, 10, 7⟩)
    0 0 64 rfl).2 (by decide)

/-- A firmware variable store holding data of size `N`: it reports
`BUFFER_TOO_SMALL` with required size `N` for any buffer shorter than `N`
and `SUCCESS` (with actual size `N` and attributes `a`) otherwise. -/
def fwStoreN (N a : Nat) : Nat → Nat → FwResp := fun _ len =>
  if len < N then ⟨Status.BUFFER_TOO_SMALL, N, 0⟩ else ⟨Status.SUCCESS, N, a⟩

/-- C6: against a store that reports `BUFFER_TOO_SMALL(N)` for buffers
shorter than `N` and `SUCCESS` otherwise, the `get_variable` retry loop
terminates within two firmware calls (fuel 2 suffices), returns data of
length `N`, and the buffer at the successful call has length at least
`N`. -/
theorem get_variable_bounded_retry :
    ∀ N a : Nat,
      getVariableLoop (fwStoreN N a) 2 0 64 = .ok N a
      ∧ getVariableCallCount (fwStoreN N a) 2 0 64 ≤ 2
      ∧ ∃ L, getVariableFinalLen (fwStoreN N a) 2 0 64 = some L ∧ N ≤ L := by
  intro N a
  rcases Nat.lt_or_ge 64 N with h | h
  · have h1 : fwStoreN N a 0 64 = ⟨Status.BUFFER_TOO_SMALL, N, 0⟩ := by
      unfold fwStoreN; rw [if_pos h]
    have h2 : fwStoreN N a 1 N = ⟨Status.SUCCESS, N, a⟩ := by
      unfold fwStoreN; rw [if_neg (Nat.lt_irrefl N)]
    refine ⟨?_, ?_, N, ?_, Nat.le_refl N⟩
    · unfold getVariableLoop
      rw [h1]
      rw [if_neg bts_ne_success, if_pos rfl]
      unfold getVariableLoop
      rw [h2, if_pos rfl, Nat.min_self]
    · unfold getVariableCallCount
      rw [h1]
      rw [if_neg bts_ne_success, if_pos rfl]
      unfold getVariableCallCount
      rw [h2, if_pos rfl]
    · unfold getVariableFinalLen
      rw [h1]
      rw [if_neg bts_ne_success, if_pos rfl]
      unfold getVariableFinalLen
      rw [h2, if_pos rfl]
  · have h1 : fwStoreN N a 0 64 = ⟨Status.SUCCESS, N, a⟩ := by
      unfold fwStoreN; rw [if_neg (Nat.not_lt.mpr h)]
    refine ⟨?_, ?_, 64, ?_, h⟩
    · unfold getVariableLoop
      rw [h1, if_pos rfl, Nat.min_eq_left h]
    · unfold getVariableCallCount
      rw [h1, if_pos rfl]
      omega
    · unfold getVariableFinalLen
      rw [h1, if_pos rfl]

/-- C1 (counterexample): with a firmware whose name-enumeration call reports
`BUFFER_TOO_SMALL` both on the first call and on the post-resize retry, the
iterator does not resize-and-retry after the second report — it panics —
so the claim's "retries unconditionally" fails for the iterator. -/
theorem bts_retry_counterexample :
    ¬ iterBtsAlwaysRetried fwDoubleBts initIterState
    ∧ nextStep fwDoubleBts initIterState
        = .panicRetry Status.BUFFER_TOO_SMALL := by
  constructor
  · intro hcl
    have h := hcl 1 (by decide) (by decide)
    exact absurd h.1 (by decide)
  · decide

/-- C1 (amended): `BUFFER_TOO_SMALL` is never surfaced as a result: the
`get_variable` retry loop resizes the buffer to exactly the reported size
and retries on every `BUFFER_TOO_SMALL`, and never returns
`Err(BUFFER_TOO_SMALL)`; the iterator's name enumeration, on a first-call
`BUFFER_TOO_SMALL`, never silently ends: it resizes to the reported size
and retries once, yielding (with a buffer of the reported length) when the
retry does not fail, and panicking — rather than retrying again or
returning — when the retry fails (including a second `BUFFER_TOO_SMALL`). -/
theorem bts_absorbed :
    (∀ (name : List Nat) (fw : Nat → Nat → FwResp) (fuel : Nat),
       (get_variable name fw fuel).1 ≠ .err Status.BUFFER_TOO_SMALL)
    ∧ (∀ (fw : Nat → Nat → FwResp) (fuel i len : Nat),
         (fw i len).status = Status.BUFFER_TOO_SMALL →
         getVariableLoop fw (fuel + 1) i len
           = getVariableLoop fw fuel (i + 1) (fw i len).dataSize)
    ∧ (∀ (fw : Nat → GnvnResp) (st : IterState),
         (fw st.callIdx).status = Status.BUFFER_TOO_SMALL →
         nextStep fw st ≠ .ended
         ∧ (Status.is_error (fw (st.callIdx + 1)).status = true →
            nextStep fw st = .panicRetry (fw (st.callIdx + 1)).status)
         ∧ (Status.is_error (fw (st.callIdx + 1)).status = false →
            ∃ bytes st', nextStep fw st = .yield bytes st'.guid st'
              ∧ st'.buffer.length = (fw st.callIdx).nameSize
              ∧ st'.callIdx = st.callIdx + 2)) := by
  refine ⟨?_, getVariableLoop_bts_step, ?_⟩
  · intro name fw fuel
    unfold get_variable
    split
    · exact getVariableLoop_ne_err_bts fw fuel 0 64
    · intro h
      injection h with h1
      injection h1 with h2
      exact absurd h2 (by decide)
  · intro fw st h
    refine ⟨?_, nextStep_bts_err fw st h, nextStep_bts_ok fw st h⟩
    cases he : Status.is_error (fw (st.callIdx + 1)).status
    · obtain ⟨bytes, st', hy, _, _⟩ := nextStep_bts_ok fw st h he
      rw [hy]
      exact fun hc => NextOutcome.noConfusion hc
    · rw [nextStep_bts_err fw st h he]
      exact fun hc => NextOutcome.noConfusion hc

/-- A firmware reporting `BUFFER_TOO_SMALL(100)` on every `get_variable`
call. -/
def fwAlwaysBts : Nat → Nat → FwResp := fun _ _ =>
  ⟨Status.BUFFER_TOO_SMALL, 100, 0⟩

/-- A firmware whose name enumeration reports `BUFFER_TOO_SMALL(40)` first
and then succeeds with a two-unit name. -/
def fwBtsThenSuccess : Nat → GnvnResp := fun i =>
  if i = 0 then ⟨Status.BUFFER_TOO_SMALL, 40, [], 0⟩
  else ⟨Status.SUCCESS, 0, [70, 71], 9⟩

/-- Witness for C1 at concrete firmwares. -/
theorem bts_absorbed_witness :
    getVariableLoop fwAlwaysBts 1 0 64 = getVariableLoop fwAlwaysBts 0 1 100
    ∧ nextStep fwBtsThenSuccess initIterState ≠ .ended
    ∧ (∃ bytes st', nextStep fwBtsThenSuccess initIterState
          = .yield bytes st'.guid st'
        ∧ st'.buffer.length = 40 ∧ st'.callIdx = 2) :=
  ⟨bts_absorbed.2.1 fwAlwaysBts 0 0 64 rfl,
   (bts_absorbed.2.2 fwBtsThenSuccess initIterState rfl).1,
   (bts_absorbed.2.2 fwBtsThenSuccess initIterState rfl).2.2 (by decide)⟩

lemma runIter_yield_step (fw : Nat → GnvnResp) (fuel : Nat) (st : IterState)
    (bytes : List Nat) (g : Nat) (st' : IterState)
    (hn : nextStep fw st = .yield bytes g st') :
    runIter fw (fuel + 1) st
      = ((bytes, g) :: (runIter fw fuel st').1, (runIter fw fuel st').2) := by
  conv_lhs => unfold runIter
  rw [hn]

lemma runIter_k_then_stop : ∀ (K : Nat) (fw : Nat → GnvnResp) (st : IterState),
    (∀ j, j < K → (fw (st.callIdx + j)).status = Status.SUCCESS) →
    (fw (st.callIdx + K)).status ≠ Status.SUCCESS →
    (fw (st.callIdx + K)).status ≠ Status.BUFFER_TOO_SMALL →
    (runIter fw (K + 1) st).1.length = K
      ∧ (runIter fw (K + 1) st).2 = .ended := by
  intro K
  induction K with
  | zero =>
    intro fw st _ h1 h2
    have hn : nextStep fw st = .ended :=
      nextStep_other fw st (by simpa using h1) (by simpa using h2)
    simp [runIter, hn]
  | succ K ih =>
    intro fw st hS h1 h2
    have hs0 : (fw st.callIdx).status = Status.SUCCESS := by
      simpa using hS 0 (Nat.succ_pos K)
    obtain ⟨bytes, hb⟩ := decodePhase_yield
      (writeInto st.buffer ((fw st.callIdx).name ++ [0]))
      (fw st.callIdx).guid (st.callIdx + 1)
    have hn : nextStep fw st = .yield bytes (fw st.callIdx).guid
        ⟨st.callIdx + 1, writeInto st.buffer ((fw st.callIdx).name ++ [0]),
          (fw st.callIdx).guid⟩ := by
      rw [nextStep_success fw st hs0, hb]
    have hih := ih fw
      ⟨st.callIdx + 1, writeInto st.buffer ((fw st.callIdx).name ++ [0]),
        (fw st.callIdx).guid⟩
      (fun j hj => by
        have := hS (j + 1) (Nat.succ_lt_succ hj)
        simpa [Nat.add_assoc, Nat.add_comm 1 j] using this)
      (by
        have heq : st.callIdx + 1 + K = st.callIdx + (K + 1) := by omega
        rw [heq]; exact h1)
      (by
        have heq : st.callIdx + 1 + K = st.callIdx + (K + 1) := by omega
        rw [heq]; exact h2)
    rw [runIter_yield_step fw (K + 1) st bytes _ _ hn]
    constructor
    · simp [hih.1]
    · simpa using hih.2

/-- A firmware variable store enumerating `K` variables: the i-th call
(`i < K`) succeeds with the i-th name and GUID, every later call reports
`NOT_FOUND`. -/
def fwEnum (K : Nat) (names : Nat → List Nat) (guids : Nat → Nat) :
    Nat → GnvnResp := fun i =>
  if i < K then ⟨Status.SUCCESS, 0, names i, guids i⟩
  else ⟨Status.NOT_FOUND, 0, [], 0⟩

/-- C2 (counterexample): a firmware failing the first enumeration call with
`DEVICE_ERROR` — an error status other than `NOT_FOUND` and
`BUFFER_TOO_SMALL` — makes the iterator silently end (return `None`),
instead of surfacing a fatal condition as the claim states. -/
theorem iterator_error_counterexample :
    nextStep fwDeviceError initIterState = .ended
    ∧ runIter fwDeviceError 5 initIterState = ([], .ended)
    ∧ Status.is_error Status.DEVICE_ERROR = true
    ∧ Status.DEVICE_ERROR ≠ Status.NOT_FOUND := by
  refine ⟨by decide, ?_, by decide, by decide⟩
  have h : nextStep fwDeviceError initIterState = .ended := by decide
  simp [runIter, h]

/-- C2 (amended): a store answering `SUCCESS` for `K` calls and then
`NOT_FOUND` makes the iterator yield exactly `K` variables and then end;
but any non-`SUCCESS`, non-`BUFFER_TOO_SMALL` status on the first call of a
`next()` — `NOT_FOUND` or not — silently ends iteration; a fatal panic
occurs only when the call made after a `BUFFER_TOO_SMALL` resize fails. -/
theorem iterator_yields_k_then_ends :
    (∀ (K : Nat) (names : Nat → List Nat) (guids : Nat → Nat),
       (runIter (fwEnum K names guids) (K + 1) initIterState).1.length = K
       ∧ (runIter (fwEnum K names guids) (K + 1) initIterState).2 = .ended)
    ∧ (∀ (fw : Nat → GnvnResp) (st : IterState),
         (fw st.callIdx).status ≠ Status.SUCCESS →
         (fw st.callIdx).status ≠ Status.BUFFER_TOO_SMALL →
         nextStep fw st = .ended)
    ∧ (∀ (fw : Nat → GnvnResp) (st : IterState),
         (fw st.callIdx).status = Status.BUFFER_TOO_SMALL →
         Status.is_error (fw (st.callIdx + 1)).status = true →
         nextStep fw st = .panicRetry (fw (st.callIdx + 1)).status) := by
  refine ⟨?_, nextStep_other, nextStep_bts_err⟩
  intro K names guids
  refine runIter_k_then_stop K (fwEnum K names guids) initIterState ?_ ?_ ?_
  · intro j hj
    show (fwEnum K names guids (0 + j)).status = Status.SUCCESS
    unfold fwEnum
    rw [Nat.zero_add, if_pos hj]
  · show (fwEnum K names guids (0 + K)).status ≠ Status.SUCCESS
    unfold fwEnum
    rw [Nat.zero_add, if_neg (Nat.lt_irrefl K)]
    decide
  · show (fwEnum K names guids (0 + K)).status ≠ Status.BUFFER_TOO_SMALL
    unfold fwEnum
    rw [Nat.zero_add, if_neg (Nat.lt_irrefl K)]
    decide

/-- A firmware whose name enumeration reports `BUFFER_TOO_SMALL(40)` first
and then `NOT_FOUND` on the post-resize retry. -/
def fwBtsThenNotFound : Nat → GnvnResp := fun i =>
  if i = 0 then ⟨Status.BUFFER_TOO_SMALL, 40, [], 0⟩
  else ⟨Status.NOT_FOUND, 0, [], 0⟩

/-- Witness for C2 at concrete stores. -/
theorem iterator_yields_k_then_ends_witness :
    ((runIter (fwEnum 2 (fun _ => [65]) (fun _ => 5)) 3 initIterState).1.length
        = 2
      ∧ (runIter (fwEnum 2 (fun _ => [65]) (fun _ => 5)) 3 initIterState).2
        = .ended)
    ∧ nextStep fwBtsThenNotFound initIterState
        = .panicRetry Status.NOT_FOUND :=
  ⟨iterator_yields_k_then_ends.1 2 (fun _ => [65]) (fun _ => 5),
   iterator_yields_k_then_ends.2.2 fwBtsThenNotFound initIterState
     (by decide) (by decide)⟩

/-- C7: UCS-2 to UTF-8 conversion needs at most 3 bytes per 16-bit unit, so
decoding into the iterator's 3-bytes-per-unit buffer never fails for any
name the firmware returns, and `next()` never reaches the decode-failure
panic (`panicDecode`, the embedding of the `.expect` that makes any
conversion failure fatal rather than recoverable or skipped). -/
theorem iterator_decode_never_fails :
    (∀ units : List Nat, (units.map utf8Len).sum ≤ 3 * units.length)
    ∧ (∀ units : List Nat,
        (ucs2_decode units (3 * units.length)).isSome = true)
    ∧ ∀ (fw : Nat → GnvnResp) (st : IterState),
        nextStep fw st ≠ .panicDecode := by
  refine ⟨sum_utf8Len_le, ucs2_decode_some, ?_⟩
  intro fw st
  by_cases h1 : (fw st.callIdx).status = Status.SUCCESS
  · obtain ⟨bytes, hb⟩ := decodePhase_yield
      (writeInto st.buffer ((fw st.callIdx).name ++ [0]))
      (fw st.callIdx).guid (st.callIdx + 1)
    rw [nextStep_success fw st h1, hb]
    exact fun hc => NextOutcome.noConfusion hc
  · by_cases h2 : (fw st.callIdx).status = Status.BUFFER_TOO_SMALL
    · cases he : Status.is_error (fw (st.callIdx + 1)).status
      · obtain ⟨bytes, st', hy, _, _⟩ := nextStep_bts_ok fw st h2 he
        rw [hy]
        exact fun hc => NextOutcome.noConfusion hc
      · rw [nextStep_bts_err fw st h2 he]
        exact fun hc => NextOutcome.noConfusion hc
    · rw [nextStep_other fw st h1 h2]
      exact fun hc => NextOutcome.noConfusion hc

/-- C9: a variable name containing a character that does not fit in one
16-bit unit makes both `get_variable` and `set_variable` return
`Err(INVALID_PARAMETER)` while performing zero firmware calls, so the
firmware variable store is untouched on this path. -/
theorem unencodable_name_rejected_before_fw_call :
    ∀ (name : List Nat) (fw : Nat → Nat → FwResp) (fuel attributes : Nat)
      (data : List Nat) (fwSet : List Nat → Nat → List Nat → Status)
      (c : Nat), c ∈ name → 0xFFFF < c →
      get_variable name fw fuel = (.err Status.INVALID_PARAMETER, 0)
      ∧ set_variable name attributes data fwSet
          = (.error Status.INVALID_PARAMETER, 0) := by
  intro name fw fuel attributes data fwSet c hc hgt
  have henc : ¬ (ucs2_encode_ok name = true) := by
    unfold ucs2_encode_ok
    rw [List.all_eq_true]
    intro hall
    have h := hall c hc
    rw [decide_eq_true_iff] at h
    omega
  constructor
  · unfold get_variable
    rw [if_neg henc]
  · unfold set_variable
    rw [if_neg henc]

/-- Witness for C9: the name `[0x10000]` (a character needing a surrogate
pair) is rejected by both operations with no firmware call. -/
theorem unencodable_name_rejected_witness :
    get_variable [0x10000] (fun _ _ => ⟨Status.SUCCESS, 0, 0⟩) 1
      = (.err Status.INVALID_PARAMETER, 0)
    ∧ set_variable [0x10000] 7 [1, 2] (fun _ _ _ => Status.SUCCESS)
      = (.error Status.INVALID_PARAMETER, 0) :=
  unencodable_name_rejected_before_fw_call [0x10000]
    (fun _ _ => ⟨Status.SUCCESS, 0, 0⟩) 1 7 [1, 2]
    (fun _ _ _ => Status.SUCCESS) 0x10000 (by decide) (by decide)

lemma layoutOffset_succ (ns : List DevicePath) (i : Nat) (h : i < ns.length) :
    layoutOffset ns (i + 1) = layoutOffset ns i + (ns.get ⟨i, h⟩).length := by
  unfold layoutOffset
  have h' : i < (ns.map (fun d => d.length)).length := by simpa using h
  rw [List.map_take, List.map_take, List.sum_take_succ _ i h']
  simp [List.get_eq_getElem]

lemma nextIter_chain (mem : Nat → DevicePath) (start : Nat)
    (ns : List DevicePath) (hmem : chainLayout mem start ns) :
    ∀ i, i < ns.length → nextIter mem i start = start + layoutOffset ns i := by
  intro i
  induction i with
  | zero => intro _; simp [nextIter, layoutOffset]
  | succ i ih =>
    intro h
    have hi : i < ns.length := Nat.lt_of_succ_lt h
    have hstep : nextIter mem (i + 1) start
        = next_node mem (nextIter mem i start) := rfl
    rw [hstep, ih hi]
    unfold next_node
    rw [hmem i hi, layoutOffset_succ ns i hi]
    omega

/-- C4: `is_end` holds exactly for nodes of type `END_OF_HARDWARE` with
sub-type `END_ENTIRE`; `next_node` is the node at byte offset equal to the
node's `length` field; and along a chain whose last node alone is the
end-entire terminal, `is_end` is true only at that last node and iterating
`next_node` from the first node reaches the terminal in exactly
`n - 1` steps. -/
theorem device_path_traversal :
    (∀ d : DevicePath, d.is_end = true ↔
       (d.path_type = DevicePathType.END_OF_HARDWARE ∧
        d.sub_type = EndSubType.END_ENTIRE))
    ∧ (∀ (mem : Nat → DevicePath) (addr : Nat),
         next_node mem addr = addr + (mem addr).length)
    ∧ (∀ (mem : Nat → DevicePath) (start : Nat) (ns : List DevicePath),
         1 ≤ ns.length → chainLayout mem start ns →
         (∀ i, (h : i < ns.length) →
            ((ns.get ⟨i, h⟩).is_end = true ↔ i = ns.length - 1)) →
         nextIter mem (ns.length - 1) start
             = start + layoutOffset ns (ns.length - 1)
         ∧ ∀ i, (h : i < ns.length) →
             ((mem (nextIter mem i start)).is_end = true
               ↔ i = ns.length - 1)) := by
  refine ⟨?_, fun _ _ => rfl, ?_⟩
  · intro d
    simp [DevicePath.is_end]
  · intro mem start ns hlen hmem hEnd
    have hterm : ns.length - 1 < ns.length := by omega
    constructor
    · exact nextIter_chain mem start ns hmem (ns.length - 1) hterm
    · intro i h
      rw [nextIter_chain mem start ns hmem i h, hmem i h]
      exact hEnd i h

/-- A two-node chain: one hardware node then the end-entire terminal. -/
def nsChainW : List DevicePath := [⟨1, 1, 4⟩, ⟨0x7f, 0xff, 4⟩]

/-- Memory holding `nsChainW` contiguously from address 0. -/
def memChainW : Nat → DevicePath := fun a =>
  if a = 0 then ⟨1, 1, 4⟩ else ⟨0x7f, 0xff, 4⟩

/-- Witness for C4 on a concrete two-node chain: the terminal is reached in
exactly one `next_node` step. -/
theorem device_path_traversal_witness :
    nextIter memChainW 1 0 = 0 + layoutOffset nsChainW 1 :=
  (device_path_traversal.2.2 memChainW 0 nsChainW (by decide)
    (by unfold chainLayout; decide) (by decide)).1

end Uefi
